import Mathlib

/-!
Shallow embedding of the dinocodesx/gemini-genkit-api repository.

The repository contains two programs:
- ts/index.ts: a three-stage Genkit pipeline (restaurantMenuGeneratorFlow,
  menuCardDesignFlow, generateMenuCardImage) orchestrated by
  completeRestaurantPackageFlow;
- go/main.go: a food-recipe flow (foodRecipeFlow) behind an HTTP handler
  (POST /api/recipe).

External generation calls (Genkit prompts, the Gemini image model, Go
GenerateData) are modelled as oracles supplied in an environment record.
Each step additionally records which external calls it made (List ExtCall)
and which filesystem operations it performed (List FsOp), so the claims
about short-circuiting, call counts and file writes are statable.
-/

namespace GeminiGenkit

/-! ## TypeScript data model (ts/index.ts, zod schemas) -/

/-- MenuItemSchema: z.object of name, description, price (all strings). -/
structure MenuItem where
  name : String
  description : String
  price : String
  deriving DecidableEq, Repr

/-- RestaurantInputSchema. priceRange is kept as the decoded string; the
z.enum membership check is embedded separately as priceRangeAccepted. -/
structure RestaurantInput where
  name : String
  theme : String
  cuisineType : String
  priceRange : String
  atmosphere : String
  specialFeature : Option String
  deriving DecidableEq, Repr

/-- RestaurantMenuSchema. -/
structure RestaurantMenu where
  restaurantName : String
  tagline : String
  appetizers : List MenuItem
  mains : List MenuItem
  desserts : List MenuItem
  beverages : List MenuItem
  specialties : Option (List MenuItem)
  funFact : String
  ambiance : String
  deriving DecidableEq, Repr

/-- colorScheme object of MenuCardDesignSchema. -/
structure ColorScheme where
  primary : String
  secondary : String
  background : String
  text : String
  deriving DecidableEq, Repr

/-- typography object of MenuCardDesignSchema. -/
structure Typography where
  headerFont : String
  bodyFont : String
  accent : String
  deriving DecidableEq, Repr

/-- MenuCardDesignSchema. -/
structure MenuCardDesign where
  colorScheme : ColorScheme
  typography : Typography
  layoutStyle : String
  decorativeElements : String
  backgroundTexture : String
  deriving DecidableEq, Repr

/-- MenuCardDesignInputSchema: restaurantSpecs plus menuData. -/
structure MenuCardDesignInput where
  restaurantSpecs : RestaurantInput
  menuData : RestaurantMenu
  deriving DecidableEq, Repr

/-- CompleteRestaurantPackageSchema: the parent flow output. -/
structure CompleteRestaurantPackage where
  restaurantSpecs : RestaurantInput
  menuData : RestaurantMenu
  designSpecs : MenuCardDesign
  imagePath : String
  deriving DecidableEq, Repr

/-- The z.enum list of RestaurantInputSchema.priceRange, in declaration
order: z.enum(["budget", "mid-range", "upscale", "fine-dining"]). -/
def priceRangeValues : List String := ["budget", "mid-range", "upscale", "fine-dining"]

/-- Embeds the z.enum check on priceRange: the candidate string is accepted
exactly when it is literally one of the declared values (zod compares enum
candidates by exact string equality, hence case-sensitively). -/
def priceRangeAccepted (s : String) : Bool := priceRangeValues.contains s

/-! ## Generation responses of the image model (GoogleGenerativeAI) -/

/-- The inlineData object of a response part; data holds the base64 payload.
Both part.inlineData and part.inlineData.data are checked for JS truthiness
in the source, so both layers are optional and an empty string is unusable. -/
structure InlineData where
  data : Option String
  deriving DecidableEq, Repr

/-- One part of a candidate content. -/
structure Part where
  inlineData : Option InlineData
  deriving DecidableEq, Repr

/-- The content object of a candidate; parts may be absent. -/
structure CandidateContent where
  parts : Option (List Part)
  deriving DecidableEq, Repr

/-- One response candidate; content may be absent. -/
structure Candidate where
  content : Option CandidateContent
  deriving DecidableEq, Repr

/-- A model.generateContent response; candidates may be absent. -/
structure GenResponse where
  candidates : Option (List Candidate)
  deriving DecidableEq, Repr

/-! ## External calls, filesystem operations, errors -/

/-- The four outbound generation calls that ts/index.ts can make:
menuPrompt(input), designPrompt(input), imagePrompt(menu, design, specs),
and model.generateContent([text]). -/
inductive ExtCall
  | menuPromptCall
  | designPromptCall
  | imagePromptCall
  | imageModelCall
  deriving DecidableEq, Repr

/-- Filesystem operations performed by generateMenuCardImage: a recursive
mkdir of the output directory and a writeFileSync of the image bytes. -/
inductive FsOp
  | mkdirRecursive (dir : String)
  | writeFile (filepath : String) (data : String)
  deriving DecidableEq, Repr

/-- Failures of the TypeScript flows: either the awaited external call
itself rejected (upstream, carrying its opaque cause), or the flow threw
new Error(msg) itself. -/
inductive FlowError
  | upstream (cause : String)
  | thrown (msg : String)
  deriving DecidableEq, Repr

/-- Oracle environment for one run: the outcome each external collaborator
call would produce, plus ambient runtime facts (cwd, whether the output
directory already exists, the wall-clock ISO timestamp). An Except.error is
a rejected awaited call; Except.ok none models a generation that produced
no structured output (output is falsy). -/
structure GenEnv where
  menuPromptResp : RestaurantInput → Except String (Option RestaurantMenu)
  designPromptResp : MenuCardDesignInput → Except String (Option MenuCardDesign)
  imagePromptResp : RestaurantMenu → MenuCardDesign → RestaurantInput → Except String String
  imageModelResp : String → Except String GenResponse
  cwd : String
  dirExists : Bool
  timestampIso : String

/-! ## The three steps (ts/index.ts lines 104-216) -/

/-- restaurantMenuGeneratorFlow: awaits menuPrompt(input); if output is
falsy it throws Error("Failed to generate restaurant menu"), else returns
the output. The second component records the external calls made. -/
def restaurantMenuGeneratorFlow (env : GenEnv) (input : RestaurantInput) :
    Except FlowError RestaurantMenu × List ExtCall :=
  match env.menuPromptResp input with
  | .error cause => (.error (.upstream cause), [.menuPromptCall])
  | .ok none => (.error (.thrown "Failed to generate restaurant menu"), [.menuPromptCall])
  | .ok (some output) => (.ok output, [.menuPromptCall])

/-- menuCardDesignFlow: awaits designPrompt(input); if output is falsy it
throws Error("Failed to generate menu card design specifications"), else
returns the output. -/
def menuCardDesignFlow (env : GenEnv) (input : MenuCardDesignInput) :
    Except FlowError MenuCardDesign × List ExtCall :=
  match env.designPromptResp input with
  | .error cause => (.error (.upstream cause), [.designPromptCall])
  | .ok none =>
      (.error (.thrown "Failed to generate menu card design specifications"), [.designPromptCall])
  | .ok (some output) => (.ok output, [.designPromptCall])

/-- Embeds the JS test of one ASCII-alphanumeric character class element,
the complement of the regex [^a-zA-Z0-9]. -/
def isAsciiAlphanum (c : Char) : Bool :=
  (Char.ofNat 97 ≤ c && c ≤ Char.ofNat 122) ||
  (Char.ofNat 65 ≤ c && c ≤ Char.ofNat 90) ||
  (Char.ofNat 48 ≤ c && c ≤ Char.ofNat 57)

/-- Embeds menu.restaurantName.replace(/[^a-zA-Z0-9]/g, "_"): every
character outside [a-zA-Z0-9] becomes an underscore. -/
def sanitizeRestaurantName (s : String) : String :=
  String.mk (s.data.map fun c => if isAsciiAlphanum c then c else '_')

/-- Embeds new Date().toISOString().replace(/[:.]/g, "-"): colons and dots
of the ISO timestamp become hyphens. -/
def sanitizeTimestamp (s : String) : String :=
  String.mk (s.data.map fun c => if c = ':' || c = '.' then '-' else c)

/-- The image file name: menu_card_(sanitized name)_(sanitized timestamp).png. -/
def imageFileName (restaurantName isoTimestamp : String) : String :=
  "menu_card_" ++ sanitizeRestaurantName restaurantName ++ "_" ++
    sanitizeTimestamp isoTimestamp ++ ".png"

/-- path.join of two segments. -/
def pathJoin (a b : String) : String := a ++ "/" ++ b

/-- The for-loop of generateMenuCardImage over the candidate parts: the
first part whose inlineData and inlineData.data are truthy (present and,
for the string, non-empty) supplies the image payload. -/
def findInlineImageData : List Part → Option String
  | [] => none
  | p :: ps =>
    match p.inlineData with
    | none => findInlineImageData ps
    | some d =>
      match d.data with
      | none => findInlineImageData ps
      | some s => if s = "" then findInlineImageData ps else some s

/-- generateMenuCardImage (ts/index.ts lines 145-216): awaits
imagePrompt(menu, design, restaurantSpecs) for the prompt text, then
model.generateContent([text]); validates candidates, content and parts,
throwing the corresponding Error on each missing layer; on the first part
with usable inlineData it ensures the output directory exists, writes the
image file and returns the file path. Returns (result, external calls made,
filesystem operations performed). -/
def generateMenuCardImage (env : GenEnv) (menu : RestaurantMenu)
    (design : MenuCardDesign) (restaurantSpecs : RestaurantInput) :
    Except FlowError String × List ExtCall × List FsOp :=
  match env.imagePromptResp menu design restaurantSpecs with
  | .error cause => (.error (.upstream cause), [.imagePromptCall], [])
  | .ok text =>
    match env.imageModelResp text with
    | .error cause => (.error (.upstream cause), [.imagePromptCall, .imageModelCall], [])
    | .ok response =>
      match response.candidates with
      | none =>
          (.error (.thrown "No candidates found in the response"),
            [.imagePromptCall, .imageModelCall], [])
      | some [] =>
          (.error (.thrown "No candidates found in the response"),
            [.imagePromptCall, .imageModelCall], [])
      | some (firstCandidate :: _) =>
        match firstCandidate.content with
        | none =>
            (.error (.thrown "No content found in the first candidate"),
              [.imagePromptCall, .imageModelCall], [])
        | some content =>
          match content.parts with
          | none =>
              (.error (.thrown "No parts found in the candidate content"),
                [.imagePromptCall, .imageModelCall], [])
          | some [] =>
              (.error (.thrown "No parts found in the candidate content"),
                [.imagePromptCall, .imageModelCall], [])
          | some parts =>
            match findInlineImageData parts with
            | none =>
                (.error (.thrown "No image data received from the model"),
                  [.imagePromptCall, .imageModelCall], [])
            | some imageData =>
              let outputDir := pathJoin env.cwd "generated_menus"
              let filepath :=
                pathJoin outputDir (imageFileName menu.restaurantName env.timestampIso)
              let dirOps : List FsOp :=
                if env.dirExists then [] else [.mkdirRecursive outputDir]
              (.ok filepath, [.imagePromptCall, .imageModelCall],
                dirOps ++ [.writeFile filepath imageData])

/-- completeRestaurantPackageFlow (ts/index.ts lines 219-256): runs the
menu flow, then the design flow on the original specs plus the menu, then
generateMenuCardImage; a thrown error at any stage propagates out of the
parent flow unchanged (await rethrows), and on success the package bundles
the untouched restaurantSpecs, menuData, designSpecs and imagePath. -/
def completeRestaurantPackageFlow (env : GenEnv) (restaurantSpecs : RestaurantInput) :
    Except FlowError CompleteRestaurantPackage × List ExtCall × List FsOp :=
  match restaurantMenuGeneratorFlow env restaurantSpecs with
  | (.error e, calls₁) => (.error e, calls₁, [])
  | (.ok menuData, calls₁) =>
    match menuCardDesignFlow env { restaurantSpecs := restaurantSpecs, menuData := menuData } with
    | (.error e, calls₂) => (.error e, calls₁ ++ calls₂, [])
    | (.ok designSpecs, calls₂) =>
      match generateMenuCardImage env menuData designSpecs restaurantSpecs with
      | (.error e, calls₃, fsOps) => (.error e, calls₁ ++ calls₂ ++ calls₃, fsOps)
      | (.ok imagePath, calls₃, fsOps) =>
          (.ok { restaurantSpecs := restaurantSpecs, menuData := menuData,
                 designSpecs := designSpecs, imagePath := imagePath },
            calls₁ ++ calls₂ ++ calls₃, fsOps)

/-! ## Go data model (go/main.go) -/

/-- FoodInput: the recipe request body. Omitted JSON fields decode to the
Go zero values ("" and 0). -/
structure FoodInput where
  foodName : String
  dietaryRestrictions : String
  difficulty : String
  servingSize : Int
  deriving DecidableEq, Repr

/-- FoodRecipe: the structured recipe produced by GenerateData. -/
structure FoodRecipe where
  name : String
  description : String
  difficulty : String
  prepTime : String
  cookTime : String
  totalTime : String
  servings : Int
  ingredients : List String
  instructions : List String
  tips : List String
  nutrition : String
  deriving DecidableEq, Repr

/-- ErrorResponse: the structured error body of the HTTP boundary. -/
structure ErrorResponse where
  error : String
  message : String
  deriving DecidableEq, Repr

/-- Embeds strings.TrimSpace: leading and trailing whitespace characters
are removed. -/
def trimSpace (s : String) : String :=
  String.mk (((s.data.dropWhile Char.isWhitespace).reverse.dropWhile
    Char.isWhitespace).reverse)

/-- The fmt.Sprintf prompt of foodRecipeFlow (go/main.go lines 79-95). -/
def recipePrompt (foodName difficulty : String) (servingSize : Int)
    (dietaryRestrictions : String) : String :=
  "Create a detailed, authentic recipe for \"" ++ foodName ++
  "\" with the following specifications:\n\n\t\tFood: " ++ foodName ++
  "\n\t\tDifficulty level: " ++ difficulty ++
  "\n\t\tServings: " ++ toString servingSize ++
  "\n\t\tDietary restrictions: " ++ dietaryRestrictions ++
  "\n\n\t\tPlease provide:\n\t\t1. A brief description of the dish" ++
  "\n\t\t2. Accurate preparation and cooking times" ++
  "\n\t\t3. A complete ingredients list with specific quantities" ++
  "\n\t\t4. Step-by-step cooking instructions that are easy to follow" ++
  "\n\t\t5. Helpful cooking tips and techniques" ++
  "\n\t\t6. Basic nutritional information" ++
  "\n\n\t\tMake sure the recipe is practical and achievable for home cooking."

/-- foodRecipeFlow (go/main.go lines 56-116): rejects blank foodName,
defaults difficulty to medium, servingSize to 4 and dietaryRestrictions to
none, calls GenerateData (the gen oracle) with the built prompt, wraps its
error, then defaults the recipe name to the input foodName and the recipe
servings to the requested serving size when the model left them zero. -/
def foodRecipeFlow (gen : String → Except String FoodRecipe) (input : FoodInput) :
    Except String FoodRecipe :=
  if trimSpace input.foodName = "" then
    .error "food name is required"
  else
    let difficulty := if input.difficulty = "" then "medium" else input.difficulty
    let servingSize := if input.servingSize = 0 then 4 else input.servingSize
    let dietaryRestrictions :=
      if input.dietaryRestrictions = "" then "none" else input.dietaryRestrictions
    match gen (recipePrompt input.foodName difficulty servingSize dietaryRestrictions) with
    | .error cause =>
        .error ("failed to generate recipe for " ++ input.foodName ++ ": " ++ cause)
    | .ok recipe =>
      let recipe₁ := if recipe.name = "" then { recipe with name := input.foodName } else recipe
      let recipe₂ :=
        if recipe₁.servings = 0 then { recipe₁ with servings := servingSize } else recipe₁
      .ok recipe₂

/-- An HTTP response body of the recipe endpoint: either the recipe JSON or
the structured error object. -/
inductive RecipeHttpBody
  | recipeBody (r : FoodRecipe)
  | errorBody (e : ErrorResponse)
  deriving DecidableEq, Repr

/-- The POST /api/recipe handler (go/main.go lines 138-172): a body that
fails to decode yields 400 with the Invalid JSON error object; any error
from foodRecipeFlow.Run yields 500 with the Recipe Generation Failed error
object carrying err.Error(); success yields 200 with the recipe. The
decoded body is modelled as Option FoodInput (none = JSON decode error). -/
def handleRecipeRequest (gen : String → Except String FoodRecipe)
    (body : Option FoodInput) : Nat × RecipeHttpBody :=
  match body with
  | none =>
      (400, .errorBody { error := "Invalid JSON", message := "Please provide valid JSON input" })
  | some input =>
    match foodRecipeFlow gen input with
    | .error msg =>
        (500, .errorBody { error := "Recipe Generation Failed", message := msg })
    | .ok recipe => (200, .recipeBody recipe)

/-! ## Concrete fixtures used by witnesses and counterexamples -/

/-- The sample restaurant of ts/index.ts main(). -/
def sampleInput : RestaurantInput :=
  { name := "The Cosmic Cantina"
    theme := "intergalactic space diner with retro-futuristic vibes"
    cuisineType := "fusion comfort food"
    priceRange := "mid-range"
    atmosphere := "quirky and family-friendly with neon lights and space memorabilia"
    specialFeature := some "all dishes are served on LED-lit plates" }

/-- A small fully-populated menu, as a stub collaborator would return it. -/
def sampleMenu : RestaurantMenu :=
  { restaurantName := "The Cosmic Cantina"
    tagline := "Food from another galaxy"
    appetizers := [{ name := "Asteroid Bites", description := "Crispy spheres", price := "$8" }]
    mains := [{ name := "Nebula Noodles", description := "Glowing ramen", price := "$18" }]
    desserts := [{ name := "Moon Pie", description := "Cream pie", price := "$9" }]
    beverages := [{ name := "Rocket Fuel", description := "Cold brew", price := "$5" }]
    specialties := none
    funFact := "The jukebox only plays space disco"
    ambiance := "Neon lights over chrome booths" }

/-- A small fully-populated design specification. -/
def sampleDesign : MenuCardDesign :=
  { colorScheme :=
      { primary := "deep purple", secondary := "neon teal"
        background := "black gradient", text := "white" }
    typography :=
      { headerFont := "Orbitron", bodyFont := "Exo", accent := "Audiowide" }
    layoutStyle := "retro-futuristic"
    decorativeElements := "stars and rockets"
    backgroundTexture := "starfield" }

/-- An image-model response whose first candidate carries inline image data. -/
def sampleImageResponse : GenResponse :=
  { candidates :=
      some [{ content := some { parts := some [{ inlineData := some { data := some "aGVsbG8=" } }] } }] }

/-- An environment in which every external call succeeds with the sample
payloads; the output directory does not exist yet. -/
def okEnv : GenEnv :=
  { menuPromptResp := fun _ => .ok (some sampleMenu)
    designPromptResp := fun _ => .ok (some sampleDesign)
    imagePromptResp := fun _ _ _ => .ok "menu card image prompt text"
    imageModelResp := fun _ => .ok sampleImageResponse
    cwd := "/app"
    dirExists := false
    timestampIso := "2026-10-11T00:00:00.000Z" }

/-- An environment in which the menu prompt call returns no usable output. -/
def menuEmptyEnv : GenEnv :=
  { okEnv with menuPromptResp := fun _ => .ok none }

/-- An environment in which the design prompt call returns no usable output. -/
def designEmptyEnv : GenEnv :=
  { okEnv with designPromptResp := fun _ => .ok none }

/-- An environment in which the image model call rejects. -/
def imageModelFailEnv : GenEnv :=
  { okEnv with imageModelResp := fun _ => .error "rate limited" }

/-- A recipe as a stub GenerateData would return it, with name and servings
left at their zero values so the defaulting paths are exercised. -/
def stubRecipe : FoodRecipe :=
  { name := ""
    description := "A classic Roman pasta"
    difficulty := "medium"
    prepTime := "10 min"
    cookTime := "15 min"
    totalTime := "25 min"
    servings := 0
    ingredients := ["spaghetti", "eggs", "guanciale", "pecorino"]
    instructions := ["Boil pasta", "Render guanciale", "Combine off heat"]
    tips := ["Use pasta water"]
    nutrition := "650 kcal per serving" }

/-- A stub GenerateData oracle that always succeeds with stubRecipe. -/
def stubGen : String → Except String FoodRecipe := fun _ => .ok stubRecipe

/-- The sample request of go/main.go main(). -/
def sampleFoodInput : FoodInput :=
  { foodName := "Pasta Carbonara", dietaryRestrictions := "", difficulty := "medium"
    servingSize := 4 }

/-- An environment in which the image prompt text call rejects. -/
def imagePromptFailEnv : GenEnv :=
  { okEnv with imagePromptResp := fun _ _ _ => .error "quota exceeded" }

/-- The design-flow input built from the sample fixtures. -/
def sampleDesignInput : MenuCardDesignInput :=
  { restaurantSpecs := sampleInput, menuData := sampleMenu }

/-- The package completeRestaurantPackageFlow produces under okEnv. -/
def samplePackage : CompleteRestaurantPackage :=
  { restaurantSpecs := sampleInput
    menuData := sampleMenu
    designSpecs := sampleDesign
    imagePath := "/app/generated_menus/menu_card_The_Cosmic_Cantina_2026-10-11T00-00-00-000Z.png" }

/-- The recipe foodRecipeFlow returns for sampleFoodInput under stubGen:
name and servings have been defaulted from the request. -/
def sampleRecipeOut : FoodRecipe :=
  { stubRecipe with name := "Pasta Carbonara", servings := 4 }

/-- A decodable request body whose foodName is whitespace-only. -/
def blankFoodInput : FoodInput :=
  { foodName := "   ", dietaryRestrictions := "", difficulty := "", servingSize := 0 }

/-! ## Helper lemmas (shared across claims) -/

/-- The menu step always makes exactly the one menuPrompt call. -/
theorem restaurantMenuGeneratorFlow_calls (env : GenEnv) (input : RestaurantInput) :
    (restaurantMenuGeneratorFlow env input).2 = [ExtCall.menuPromptCall] := by
  unfold restaurantMenuGeneratorFlow
  cases h : env.menuPromptResp input with
  | error cause => rfl
  | ok o => cases o <;> rfl

/-- The design step always makes exactly the one designPrompt call. -/
theorem menuCardDesignFlow_calls (env : GenEnv) (input : MenuCardDesignInput) :
    (menuCardDesignFlow env input).2 = [ExtCall.designPromptCall] := by
  unfold menuCardDesignFlow
  cases h : env.designPromptResp input with
  | error cause => rfl
  | ok o => cases o <;> rfl

/-- The calls of the image step: the imagePrompt call alone when that call
rejects, otherwise the imagePrompt call followed by the image model call. -/
theorem generateMenuCardImage_calls (env : GenEnv) (m : RestaurantMenu)
    (d : MenuCardDesign) (s : RestaurantInput) :
    (generateMenuCardImage env m d s).2.1 = [ExtCall.imagePromptCall] ∨
    (generateMenuCardImage env m d s).2.1 = [ExtCall.imagePromptCall, ExtCall.imageModelCall] := by
  unfold generateMenuCardImage
  repeat' split
  all_goals simp

/-- Tuple form of a menu-step result from its first component. -/
theorem restaurantMenuGeneratorFlow_eq (env : GenEnv) (input : RestaurantInput)
    (r : Except FlowError RestaurantMenu)
    (h : (restaurantMenuGeneratorFlow env input).1 = r) :
    restaurantMenuGeneratorFlow env input = (r, [ExtCall.menuPromptCall]) := by
  have hc := restaurantMenuGeneratorFlow_calls env input
  rcases hx : restaurantMenuGeneratorFlow env input with ⟨a, b⟩
  rw [hx] at h hc
  simp only at h hc
  rw [h, hc]

/-- Tuple form of a design-step result from its first component. -/
theorem menuCardDesignFlow_eq (env : GenEnv) (input : MenuCardDesignInput)
    (r : Except FlowError MenuCardDesign)
    (h : (menuCardDesignFlow env input).1 = r) :
    menuCardDesignFlow env input = (r, [ExtCall.designPromptCall]) := by
  have hc := menuCardDesignFlow_calls env input
  rcases hx : menuCardDesignFlow env input with ⟨a, b⟩
  rw [hx] at h hc
  simp only at h hc
  rw [h, hc]

/-! ## Claim theorems -/

/-- C2: Each generation step (restaurantMenuGeneratorFlow,
menuCardDesignFlow) either returns the collaborator's validated payload
unchanged and in full, or a classified failure; in particular, when the
collaborator returns no usable payload the step fails with the thrown
empty-result error instead of surfacing a partial success. -/
theorem step_total_or_classified_failure (env : GenEnv) (rin : RestaurantInput)
    (din : MenuCardDesignInput) :
    (env.menuPromptResp rin = .ok none →
      (restaurantMenuGeneratorFlow env rin).1 =
        .error (.thrown "Failed to generate restaurant menu")) ∧
    (∀ m, env.menuPromptResp rin = .ok (some m) →
      (restaurantMenuGeneratorFlow env rin).1 = .ok m) ∧
    (∀ cause, env.menuPromptResp rin = .error cause →
      (restaurantMenuGeneratorFlow env rin).1 = .error (.upstream cause)) ∧
    (env.designPromptResp din = .ok none →
      (menuCardDesignFlow env din).1 =
        .error (.thrown "Failed to generate menu card design specifications")) ∧
    (∀ d, env.designPromptResp din = .ok (some d) →
      (menuCardDesignFlow env din).1 = .ok d) ∧
    (∀ cause, env.designPromptResp din = .error cause →
      (menuCardDesignFlow env din).1 = .error (.upstream cause)) := by
  refine ⟨?_, ?_, ?_, ?_, ?_, ?_⟩ <;> intros <;>
    simp [restaurantMenuGeneratorFlow, menuCardDesignFlow, *]

/-- Witness for C2 at the concrete fixtures: empty collaborator output is
classified as the thrown empty-result failure, full collaborator output is
surfaced unchanged. -/
theorem step_total_or_classified_failure_witness :
    (restaurantMenuGeneratorFlow menuEmptyEnv sampleInput).1 =
      .error (.thrown "Failed to generate restaurant menu") ∧
    (restaurantMenuGeneratorFlow okEnv sampleInput).1 = .ok sampleMenu ∧
    (menuCardDesignFlow designEmptyEnv sampleDesignInput).1 =
      .error (.thrown "Failed to generate menu card design specifications") ∧
    (menuCardDesignFlow okEnv sampleDesignInput).1 = .ok sampleDesign :=
  ⟨(step_total_or_classified_failure menuEmptyEnv sampleInput sampleDesignInput).1 rfl,
   (step_total_or_classified_failure okEnv sampleInput sampleDesignInput).2.1 sampleMenu rfl,
   (step_total_or_classified_failure designEmptyEnv sampleInput sampleDesignInput).2.2.2.1 rfl,
   (step_total_or_classified_failure okEnv sampleInput sampleDesignInput).2.2.2.2.1 sampleDesign rfl⟩

/-- C7: the z.enum check on priceRange accepts a candidate exactly when it
is literally one of budget, mid-range, upscale, fine-dining; the case
variant Budget is rejected. -/
theorem priceRange_enum_case_sensitive (s : String) :
    (priceRangeAccepted s = true ↔
      s = "budget" ∨ s = "mid-range" ∨ s = "upscale" ∨ s = "fine-dining") ∧
    priceRangeAccepted "Budget" = false := by
  constructor
  · simp [priceRangeAccepted, priceRangeValues, List.elem_iff]
  · decide

/-- Witness for C7 at concrete candidates: budget is accepted, its case
variant Budget is rejected. -/
theorem priceRange_enum_case_sensitive_witness :
    priceRangeAccepted "budget" = true ∧ priceRangeAccepted "Budget" = false :=
  ⟨(priceRange_enum_case_sensitive "budget").1.2 (Or.inl rfl),
   (priceRange_enum_case_sensitive "budget").2⟩

/-- C10: the restaurant-name component of the generated image file name is
the character-wise sanitization of menu.restaurantName, and every character
of that component is ASCII alphanumeric or an underscore; the file name is
built from exactly that component. -/
theorem image_filename_sanitizes_name (name ts : String) :
    (sanitizeRestaurantName name).data =
      name.data.map (fun c => if isAsciiAlphanum c then c else '_') ∧
    (∀ c ∈ (sanitizeRestaurantName name).data, isAsciiAlphanum c = true ∨ c = '_') ∧
    imageFileName name ts =
      "menu_card_" ++ sanitizeRestaurantName name ++ "_" ++ sanitizeTimestamp ts ++ ".png" := by
  refine ⟨rfl, ?_, rfl⟩
  intro c hc
  simp only [sanitizeRestaurantName] at hc
  obtain ⟨a, _, rfl⟩ := List.mem_map.1 hc
  by_cases h : isAsciiAlphanum a
  · exact Or.inl (by simp [h])
  · exact Or.inr (by simp [h])

/-- Witness for C10 at a concrete name and character: T comes through the
sanitizer and is ASCII alphanumeric. -/
theorem image_filename_sanitizes_name_witness :
    isAsciiAlphanum 'T' = true ∨ 'T' = '_' :=
  (image_filename_sanitizes_name "The Cosmic Cantina" "2026-10-11T00:00:00.000Z").2.1
    'T' (by decide)

/-- C1: completeRestaurantPackageFlow stops at the first failing stage: a
menu-stage failure is returned with no design or image call made, a
design-stage failure is returned with no image call made, and an
image-stage failure is returned as the run result. -/
theorem pipeline_short_circuits_on_first_failure (env : GenEnv) (input : RestaurantInput) :
    (∀ e, (restaurantMenuGeneratorFlow env input).1 = .error e →
       (completeRestaurantPackageFlow env input).1 = .error e ∧
       ExtCall.designPromptCall ∉ (completeRestaurantPackageFlow env input).2.1 ∧
       ExtCall.imagePromptCall ∉ (completeRestaurantPackageFlow env input).2.1 ∧
       ExtCall.imageModelCall ∉ (completeRestaurantPackageFlow env input).2.1) ∧
    (∀ m e, (restaurantMenuGeneratorFlow env input).1 = .ok m →
       (menuCardDesignFlow env { restaurantSpecs := input, menuData := m }).1 = .error e →
       (completeRestaurantPackageFlow env input).1 = .error e ∧
       ExtCall.imagePromptCall ∉ (completeRestaurantPackageFlow env input).2.1 ∧
       ExtCall.imageModelCall ∉ (completeRestaurantPackageFlow env input).2.1) ∧
    (∀ m d e, (restaurantMenuGeneratorFlow env input).1 = .ok m →
       (menuCardDesignFlow env { restaurantSpecs := input, menuData := m }).1 = .ok d →
       (generateMenuCardImage env m d input).1 = .error e →
       (completeRestaurantPackageFlow env input).1 = .error e) := by
  refine ⟨?_, ?_, ?_⟩
  · intro e he
    have h₁ := restaurantMenuGeneratorFlow_eq env input _ he
    have hres : completeRestaurantPackageFlow env input =
        (.error e, [ExtCall.menuPromptCall], []) := by
      simp [completeRestaurantPackageFlow, h₁]
    rw [hres]
    exact ⟨rfl, by simp, by simp, by simp⟩
  · intro m e hm he
    have h₁ := restaurantMenuGeneratorFlow_eq env input _ hm
    have h₂ := menuCardDesignFlow_eq env { restaurantSpecs := input, menuData := m } _ he
    have hres : completeRestaurantPackageFlow env input =
        (.error e, [ExtCall.menuPromptCall, ExtCall.designPromptCall], []) := by
      simp [completeRestaurantPackageFlow, h₁, h₂]
    rw [hres]
    exact ⟨rfl, by simp, by simp⟩
  · intro m d e hm hd he
    have h₁ := restaurantMenuGeneratorFlow_eq env input _ hm
    have h₂ := menuCardDesignFlow_eq env { restaurantSpecs := input, menuData := m } _ hd
    rcases hg : generateMenuCardImage env m d input with ⟨r₃, c₃, f₃⟩
    rw [hg] at he
    simp only at he
    subst he
    simp [completeRestaurantPackageFlow, h₁, h₂, hg]

/-- Witness for C1 at a concrete run: under menuEmptyEnv the first stage
fails, the run returns that failure and no later client call appears. -/
theorem pipeline_short_circuits_witness :
    (completeRestaurantPackageFlow menuEmptyEnv sampleInput).1 =
      .error (.thrown "Failed to generate restaurant menu") ∧
    ExtCall.designPromptCall ∉ (completeRestaurantPackageFlow menuEmptyEnv sampleInput).2.1 ∧
    ExtCall.imagePromptCall ∉ (completeRestaurantPackageFlow menuEmptyEnv sampleInput).2.1 ∧
    ExtCall.imageModelCall ∉ (completeRestaurantPackageFlow menuEmptyEnv sampleInput).2.1 :=
  (pipeline_short_circuits_on_first_failure menuEmptyEnv sampleInput).1
    (.thrown "Failed to generate restaurant menu") rfl

/-- C5: on a successful run no stage has mutated what earlier stages put
into the context: the returned package carries the initial restaurantSpecs
unchanged, the menuData exactly as stage 1 produced it, and the designSpecs
exactly as stage 2 produced it. -/
theorem pipeline_preserves_prior_entries (env : GenEnv) (input : RestaurantInput) :
    ∀ pkg calls fsOps, completeRestaurantPackageFlow env input = (.ok pkg, calls, fsOps) →
      pkg.restaurantSpecs = input ∧
      (restaurantMenuGeneratorFlow env input).1 = .ok pkg.menuData ∧
      (menuCardDesignFlow env
        { restaurantSpecs := input, menuData := pkg.menuData }).1 = .ok pkg.designSpecs := by
  intro pkg calls fsOps h
  unfold completeRestaurantPackageFlow at h
  split at h
  · simp at h
  next m c₁ h₁ =>
    split at h
    · simp at h
    next d c₂ h₂ =>
      split at h
      · simp at h
      next p c₃ f₃ h₃ =>
        simp only [Prod.mk.injEq, Except.ok.injEq] at h
        obtain ⟨hpkg, -⟩ := h
        subst hpkg
        simp [h₁, h₂]

/-- Witness for C5 at the concrete successful run under okEnv. -/
theorem pipeline_preserves_prior_entries_witness :
    samplePackage.restaurantSpecs = sampleInput ∧
    (restaurantMenuGeneratorFlow okEnv sampleInput).1 = .ok samplePackage.menuData ∧
    (menuCardDesignFlow okEnv
      { restaurantSpecs := sampleInput, menuData := samplePackage.menuData }).1 =
        .ok samplePackage.designSpecs :=
  pipeline_preserves_prior_entries okEnv sampleInput samplePackage
    [ExtCall.menuPromptCall, ExtCall.designPromptCall,
     ExtCall.imagePromptCall, ExtCall.imageModelCall]
    [FsOp.mkdirRecursive "/app/generated_menus",
     FsOp.writeFile
       "/app/generated_menus/menu_card_The_Cosmic_Cantina_2026-10-11T00-00-00-000Z.png"
       "aGVsbG8="]
    rfl

/-- C4 counterexample: on a concrete successful run the image-generation
step makes two external generation calls (the imagePrompt text call and the
image model call), not exactly one as claimed. -/
theorem image_step_not_exactly_one_call :
    (generateMenuCardImage okEnv sampleMenu sampleDesign sampleInput).2.1.length = 2 ∧
    ¬ (generateMenuCardImage okEnv sampleMenu sampleDesign sampleInput).2.1.length = 1 ∧
    (generateMenuCardImage okEnv sampleMenu sampleDesign sampleInput).1 =
      .ok "/app/generated_menus/menu_card_The_Cosmic_Cantina_2026-10-11T00-00-00-000Z.png" :=
  ⟨rfl, by decide, rfl⟩

/-- C4 amended: per run, the menu and design steps each make exactly one
outbound generation call; the image step makes exactly one call when its
prompt-text call rejects and exactly two otherwise (the prompt-text call
followed by the image model call); no step retries a call. -/
theorem step_external_call_counts (env : GenEnv) (rin : RestaurantInput)
    (din : MenuCardDesignInput) (m : RestaurantMenu) (d : MenuCardDesign) :
    (restaurantMenuGeneratorFlow env rin).2 = [ExtCall.menuPromptCall] ∧
    (menuCardDesignFlow env din).2 = [ExtCall.designPromptCall] ∧
    (∀ cause, env.imagePromptResp m d rin = .error cause →
      (generateMenuCardImage env m d rin).2.1 = [ExtCall.imagePromptCall]) ∧
    (∀ text, env.imagePromptResp m d rin = .ok text →
      (generateMenuCardImage env m d rin).2.1 =
        [ExtCall.imagePromptCall, ExtCall.imageModelCall]) := by
  refine ⟨restaurantMenuGeneratorFlow_calls env rin, menuCardDesignFlow_calls env din, ?_, ?_⟩
  · intro cause hc
    simp [generateMenuCardImage, hc]
  · intro text ht
    simp [generateMenuCardImage, ht]
    repeat' split
    all_goals simp

/-- Witness for C4 amended at concrete runs: one call each for the menu and
design steps, one call for the image step when the prompt call rejects, two
calls on the successful run. -/
theorem step_external_call_counts_witness :
    (restaurantMenuGeneratorFlow okEnv sampleInput).2 = [ExtCall.menuPromptCall] ∧
    (menuCardDesignFlow okEnv sampleDesignInput).2 = [ExtCall.designPromptCall] ∧
    (generateMenuCardImage imagePromptFailEnv sampleMenu sampleDesign sampleInput).2.1 =
      [ExtCall.imagePromptCall] ∧
    (generateMenuCardImage okEnv sampleMenu sampleDesign sampleInput).2.1 =
      [ExtCall.imagePromptCall, ExtCall.imageModelCall] :=
  ⟨(step_external_call_counts okEnv sampleInput sampleDesignInput sampleMenu sampleDesign).1,
   (step_external_call_counts okEnv sampleInput sampleDesignInput sampleMenu sampleDesign).2.1,
   (step_external_call_counts imagePromptFailEnv sampleInput sampleDesignInput
      sampleMenu sampleDesign).2.2.1 "quota exceeded" rfl,
   (step_external_call_counts okEnv sampleInput sampleDesignInput
      sampleMenu sampleDesign).2.2.2 "menu card image prompt text" rfl⟩

/-- C6: when the image stage succeeds, its filesystem effects are exactly a
write of the one image file, preceded by a recursive mkdir of the output
directory exactly when that directory is absent; the returned path is the
output directory joined with a file name built only from the restaurant
name and the timestamp. -/
theorem image_stage_write_effects (env : GenEnv) (m : RestaurantMenu)
    (d : MenuCardDesign) (specs : RestaurantInput) :
    ∀ filepath calls fsOps,
      generateMenuCardImage env m d specs = (.ok filepath, calls, fsOps) →
      filepath = pathJoin (pathJoin env.cwd "generated_menus")
          (imageFileName m.restaurantName env.timestampIso) ∧
      ∃ imageData,
        fsOps = (if env.dirExists then ([] : List FsOp)
                 else [FsOp.mkdirRecursive (pathJoin env.cwd "generated_menus")]) ++
                [FsOp.writeFile filepath imageData] := by
  intro filepath calls fsOps h
  unfold generateMenuCardImage at h
  split at h
  · simp at h
  split at h
  · simp at h
  split at h <;> try simp at h
  split at h <;> try simp at h
  split at h <;> try simp at h
  split at h
  · simp at h
  next imageData hfind =>
    simp only [Prod.mk.injEq, Except.ok.injEq] at h
    obtain ⟨hp, -, hf⟩ := h
    subst hp
    subst hf
    exact ⟨rfl, imageData, rfl⟩

/-- Witness for C6 at the concrete successful run under okEnv, where the
output directory is absent and a mkdir precedes the single file write. -/
theorem image_stage_write_effects_witness :
    "/app/generated_menus/menu_card_The_Cosmic_Cantina_2026-10-11T00-00-00-000Z.png" =
      pathJoin (pathJoin okEnv.cwd "generated_menus")
        (imageFileName sampleMenu.restaurantName okEnv.timestampIso) ∧
    ∃ imageData,
      [FsOp.mkdirRecursive "/app/generated_menus",
       FsOp.writeFile
         "/app/generated_menus/menu_card_The_Cosmic_Cantina_2026-10-11T00-00-00-000Z.png"
         "aGVsbG8="] =
      (if okEnv.dirExists then ([] : List FsOp)
       else [FsOp.mkdirRecursive (pathJoin okEnv.cwd "generated_menus")]) ++
      [FsOp.writeFile
        "/app/generated_menus/menu_card_The_Cosmic_Cantina_2026-10-11T00-00-00-000Z.png"
        imageData] :=
  image_stage_write_effects okEnv sampleMenu sampleDesign sampleInput
    "/app/generated_menus/menu_card_The_Cosmic_Cantina_2026-10-11T00-00-00-000Z.png"
    [ExtCall.imagePromptCall, ExtCall.imageModelCall]
    [FsOp.mkdirRecursive "/app/generated_menus",
     FsOp.writeFile
       "/app/generated_menus/menu_card_The_Cosmic_Cantina_2026-10-11T00-00-00-000Z.png"
       "aGVsbG8="]
    rfl

/-- C9: a successful foodRecipeFlow run returns a recipe with a non-empty
name and non-zero servings; when the model left the name empty it is the
input foodName, and when the model left servings zero it is the requested
serving size, itself defaulted to 4 when the caller supplied 0. -/
theorem foodRecipeFlow_success_defaults (gen : String → Except String FoodRecipe)
    (input : FoodInput) :
    ∀ r, foodRecipeFlow gen input = .ok r →
      r.name ≠ "" ∧ r.servings ≠ 0 ∧
      (∀ raw, gen (recipePrompt input.foodName
            (if input.difficulty = "" then "medium" else input.difficulty)
            (if input.servingSize = 0 then 4 else input.servingSize)
            (if input.dietaryRestrictions = "" then "none" else input.dietaryRestrictions))
          = .ok raw →
        (raw.name = "" → r.name = input.foodName) ∧
        (raw.servings = 0 →
          r.servings = if input.servingSize = 0 then 4 else input.servingSize)) := by
  intro r h
  simp only [foodRecipeFlow] at h
  split at h
  · simp at h
  next hblank =>
    have hfn : input.foodName ≠ "" := by
      intro hs
      exact hblank (by rw [hs]; rfl)
    split at h
    next cause hraw => simp at h
    next raw hraw =>
      simp only [Except.ok.injEq] at h
      subst h
      refine ⟨?_, ?_, ?_⟩
      · by_cases h₁ : raw.name = "" <;> by_cases h₂ : raw.servings = 0 <;>
          simp [h₁, h₂, hfn]
      · by_cases h₁ : raw.name = "" <;> by_cases h₂ : raw.servings = 0 <;>
          by_cases h₃ : input.servingSize = 0 <;> simp_all
      · intro raw' hraw'
        rw [hraw] at hraw'
        simp only [Except.ok.injEq] at hraw'
        subst hraw'
        constructor
        · intro h₁
          by_cases h₂ : raw.servings = 0 <;> simp [h₁, h₂]
        · intro h₂
          by_cases h₁ : raw.name = "" <;> simp [h₁, h₂]

/-- Witness for C9 at the concrete run of main(): the stub recipe has empty
name and zero servings, and the returned recipe carries the input foodName
and the requested serving size. -/
theorem foodRecipeFlow_success_defaults_witness :
    sampleRecipeOut.name ≠ "" ∧ sampleRecipeOut.servings ≠ 0 ∧
    sampleRecipeOut.name = "Pasta Carbonara" ∧ sampleRecipeOut.servings = 4 :=
  have h := foodRecipeFlow_success_defaults stubGen sampleFoodInput sampleRecipeOut rfl
  ⟨h.1, h.2.1, (h.2.2 stubRecipe rfl).1 rfl, (h.2.2 stubRecipe rfl).2 rfl⟩

/-- C3 counterexample: a syntactically valid request whose foodName is
whitespace-only is a caller-input validation failure, yet the endpoint
answers 500 (not 400 as claimed), with the generic structured error body. -/
theorem recipe_validation_error_gets_500 :
    (handleRecipeRequest stubGen (some blankFoodInput)).1 = 500 ∧
    ¬ (handleRecipeRequest stubGen (some blankFoodInput)).1 = 400 ∧
    (handleRecipeRequest stubGen (some blankFoodInput)).2 =
      .errorBody { error := "Recipe Generation Failed", message := "food name is required" } :=
  ⟨rfl, by decide, rfl⟩

/-- C3 amended: the recipe endpoint maps an undecodable JSON body to 400
and every failure of foodRecipeFlow, the missing/whitespace foodName
validation included, to 500; in all non-2xx cases the body is a structured
error object with error and message fields, and success yields 200 with
the recipe. -/
theorem recipe_endpoint_status_mapping (gen : String → Except String FoodRecipe)
    (body : Option FoodInput) :
    (body = none →
      handleRecipeRequest gen body =
        (400, .errorBody { error := "Invalid JSON", message := "Please provide valid JSON input" })) ∧
    (∀ input msg, body = some input → foodRecipeFlow gen input = .error msg →
      handleRecipeRequest gen body =
        (500, .errorBody { error := "Recipe Generation Failed", message := msg })) ∧
    (∀ input recipe, body = some input → foodRecipeFlow gen input = .ok recipe →
      handleRecipeRequest gen body = (200, .recipeBody recipe)) := by
  refine ⟨?_, ?_, ?_⟩ <;> intros <;> subst_vars <;> simp [handleRecipeRequest, *]

/-- Witness for C3 amended at concrete requests: an undecodable body gets
400, a whitespace-only foodName gets 500, a well-formed request gets 200. -/
theorem recipe_endpoint_status_mapping_witness :
    handleRecipeRequest stubGen none =
      (400, .errorBody { error := "Invalid JSON", message := "Please provide valid JSON input" }) ∧
    handleRecipeRequest stubGen (some blankFoodInput) =
      (500, .errorBody { error := "Recipe Generation Failed", message := "food name is required" }) ∧
    handleRecipeRequest stubGen (some sampleFoodInput) = (200, .recipeBody sampleRecipeOut) :=
  ⟨(recipe_endpoint_status_mapping stubGen none).1 rfl,
   (recipe_endpoint_status_mapping stubGen (some blankFoodInput)).2.1
     blankFoodInput "food name is required" rfl rfl,
   (recipe_endpoint_status_mapping stubGen (some sampleFoodInput)).2.2
     sampleFoodInput sampleRecipeOut rfl rfl⟩

end GeminiGenkit
